import Mathlib

/-!
Verification of the codewire session multiplexer.

This file gives a shallow embedding of the parts of the codewire source that
the verified properties speak about:

- src/protocol.rs : the binary frame codec (write_frame, read_frame);
- src/session.rs  : the session data model, the SessionManager verbs
  (launch validation, attach, detach, send_input, kill, the waiter task,
  refresh_statuses), the startup recovery of sessions.json, and the
  NEXT_ID counter;
- src/daemon.rs   : the debounced persistence_manager loop.

Machine integers are modelled as Nat with explicit reduction modulo the
width where the source wraps (u32 for the id counter, usize for the
attach counter, u32 for frame lengths).  Byte streams are lists of Nat.
Filesystem and environment lookups that the source performs are passed in
as explicit oracle functions.
-/

namespace Codewire

-- ---------------------------------------------------------------------------
-- Protocol: frames (src/protocol.rs)
-- ---------------------------------------------------------------------------

/-- Maximum frame payload size, 16 MiB (protocol.rs, MAX_PAYLOAD). -/
def MAX_PAYLOAD : Nat := 16 * 1024 * 1024

/-- A wire frame: Control (JSON bytes) or Data (opaque bytes)
(protocol.rs, Frame). -/
inductive Frame
  | Control (payload : List Nat)
  | Data (payload : List Nat)
deriving DecidableEq, Repr

/-- The payload bytes of a frame. -/
def Frame.payload : Frame → List Nat
  | .Control p => p
  | .Data p => p

/-- The type byte of a frame (FRAME_CONTROL = 0x00, FRAME_DATA = 0x01). -/
def Frame.typeByte : Frame → Nat
  | .Control _ => 0
  | .Data _ => 1

/-- Big-endian byte decomposition of a u32 value
(protocol.rs, len.to_be_bytes()). -/
def u32be (n : Nat) : List Nat :=
  [n / 2 ^ 24 % 256, n / 2 ^ 16 % 256, n / 2 ^ 8 % 256, n % 256]

/-- write_frame (protocol.rs lines 215 to 230): emit the 5-byte header
(type byte, then the payload length as u32 big-endian, the length being
the Rust value payload.len() as u32, hence reduced mod 2^32) followed by
the payload bytes. -/
def write_frame (f : Frame) : List Nat :=
  f.typeByte :: u32be (f.payload.length % 2 ^ 32) ++ f.payload

/-- Outcome of read_frame on a finite byte stream: Ok(None) at an orderly
end of stream, Ok(Some frame) with the unread remainder of the stream, or
an error. -/
inductive ReadResult
  | eof
  | frame (f : Frame) (rest : List Nat)
  | failure (msg : String)
deriving DecidableEq, Repr

/-- Whether a read outcome is an error. -/
def ReadResult.isFailure : ReadResult → Bool
  | .failure _ => true
  | _ => false

/-- read_frame (protocol.rs lines 232 to 258) on a finite byte stream.

The source first performs read_exact on a 5-byte header buffer; tokio
returns UnexpectedEof if the stream ends before the buffer is full (after
0 to 4 bytes), and the source maps that to Ok(None).  A stream with fewer
than five bytes therefore yields eof.  With a complete header, the
declared length is checked against MAX_PAYLOAD before the payload is
read; a short payload read is an UnexpectedEof from read_exact that the
source propagates as an error; the type byte is inspected only after the
payload has been read. -/
def read_frame (s : List Nat) : ReadResult :=
  match s with
  | t :: a :: b :: c :: d :: rest =>
    let len := ((a * 256 + b) * 256 + c) * 256 + d
    if len > MAX_PAYLOAD then .failure "frame payload too large"
    else if rest.length < len then .failure "reading frame payload"
    else
      match t with
      | 0 => .frame (.Control (rest.take len)) (rest.drop len)
      | 1 => .frame (.Data (rest.take len)) (rest.drop len)
      | _ => .failure "unknown frame type"
  | _ => .eof

-- ---------------------------------------------------------------------------
-- Sessions (src/session.rs)
-- ---------------------------------------------------------------------------

/-- Modulus of the usize attach counter (AtomicUsize, 64-bit target):
the literal value of 2 to the 64th power. -/
def USIZE : Nat := 18446744073709551616

/-- Modulus of the u32 id counter (AtomicU32 NEXT_ID): the literal
value of 2 to the 32nd power. -/
def U32MOD : Nat := 4294967296

/-- Capacity of the bounded per-session input queue
(session.rs line 203, mpsc channel of capacity 256). -/
def INPUT_CAP : Nat := 256

/-- Session status (session.rs, SessionStatus). -/
inductive SessionStatus
  | Running
  | Completed (code : Int)
  | Killed
deriving DecidableEq, Repr

/-- The state of one live session that the verified verbs touch:
the current value of the status watch channel, the cached meta.status,
the attached_count (usize), and the buffered input queue. -/
structure Session where
  status : SessionStatus
  metaStatus : SessionStatus
  attachedCount : Nat
  inputQueue : List (List Nat)
deriving DecidableEq, Repr

/-- Effect of SessionManager.kill on the session (session.rs lines
404 to 422): send Killed on the status watch channel (the watch send
overwrites the stored value unconditionally) and set meta.status. -/
def Session.killUpdate (s : Session) : Session :=
  { s with status := .Killed, metaStatus := .Killed }

/-- Effect of the waiter task on child exit (session.rs lines 312 to
324): send Completed(code) on the status watch channel, again an
unconditional overwrite of the stored value. -/
def Session.waiterUpdate (s : Session) (code : Int) : Session :=
  { s with status := .Completed code }

/-- Effect of a successful attach: attached_count.fetch_add(1), which on
usize wraps modulo 2^64 (session.rs line 368).  The wrap is written as a
case split; for every u64-representable counter value this agrees with
addition modulo 2^64, certified by attach_wrap_eq_mod below. -/
def Session.attachUpdate (s : Session) : Session :=
  { s with attachedCount :=
      if s.attachedCount + 1 < USIZE then s.attachedCount + 1
      else s.attachedCount + 1 - USIZE }

/-- Effect of detach: attached_count.fetch_sub(1), which on usize wraps
modulo 2^64 (session.rs line 381).  The wrap is written as a case split;
for every u64-representable counter value this agrees with subtracting
one modulo 2^64 (that is, adding 2^64 - 1 modulo 2^64), certified by
detach_wrap_eq_mod below. -/
def Session.detachUpdate (s : Session) : Session :=
  { s with attachedCount :=
      if s.attachedCount = 0 then USIZE - 1 else s.attachedCount - 1 }

/-- Effect of a successful send_input: the data buffer is appended to the
input queue (session.rs line 495, try_send). -/
def Session.enqueueInput (s : Session) (data : List Nat) : Session :=
  { s with inputQueue := s.inputQueue ++ [data] }

/-- Effect of refresh_statuses on one session (session.rs lines 450 to
463): copy the watch channel value into meta.status. -/
def Session.refreshUpdate (s : Session) : Session :=
  { s with metaStatus := s.status }

/-- The operations that can touch one session after it is launched. -/
inductive SessOp
  | kill
  | waiterExit (code : Int)
  | attach
  | detach
  | sendInput (data : List Nat)
  | refresh

/-- Apply one operation to a session, with the guards the source places
around the state change: attach mutates only when the status is Running
(session.rs lines 363 to 368); send_input enqueues only when the queue
has free capacity (try_send); kill, detach and the waiter mutate
unconditionally once the session is found. -/
def Session.applyOp (s : Session) : SessOp → Session
  | .kill => s.killUpdate
  | .waiterExit c => s.waiterUpdate c
  | .attach => if s.status = .Running then s.attachUpdate else s
  | .detach => s.detachUpdate
  | .sendInput d => if s.inputQueue.length < INPUT_CAP then s.enqueueInput d else s
  | .refresh => s.refreshUpdate

-- ---------------------------------------------------------------------------
-- Session manager (src/session.rs)
-- ---------------------------------------------------------------------------

/-- Errors surfaced by the SessionManager verbs (anyhow bail sites). -/
inductive MgrErr
  | notFound (id : Nat)
  | notRunning (id : Nat)
  | busy
  | emptyCommand
  | commandNotFound (name : String)
  | commandNotExist (name : String)
  | workdirNotExist (dir : String)
  | workdirNotDir (dir : String)
deriving DecidableEq, Repr

/-- The SessionManager state the verified verbs touch: the registry
(a finite map from id to session, modelled as a function) and the
NEXT_ID counter. -/
structure Manager where
  sessions : Nat → Option Session
  nextId : Nat

/-- Replace the session stored under one id. -/
def Manager.setSession (m : Manager) (id : Nat) (s : Session) : Manager :=
  { m with sessions := fun j => if j = id then some s else m.sessions j }

/-- SessionManager.attach (session.rs lines 357 to 374): look the id up
in the registry (not found error if absent), fail with a not-running
error unless the status watch channel holds Running, otherwise increment
attached_count.  The channel handles the source returns are not part of
the model; errors leave the manager state untouched. -/
def Manager.attach (m : Manager) (id : Nat) : Manager × Except MgrErr Unit :=
  match m.sessions id with
  | none => (m, .error (.notFound id))
  | some s =>
    if s.status ≠ SessionStatus.Running then (m, .error (.notRunning id))
    else (m.setSession id s.attachUpdate, .ok ())

/-- SessionManager.detach (session.rs lines 376 to 383): look the id up
(not found error if absent) and decrement attached_count with
fetch_sub(1), which wraps on usize. -/
def Manager.detach (m : Manager) (id : Nat) : Manager × Except MgrErr Unit :=
  match m.sessions id with
  | none => (m, .error (.notFound id))
  | some s => (m.setSession id s.detachUpdate, .ok ())

/-- SessionManager.send_input (session.rs lines 485 to 498): look the id
up (not found error if absent); try_send the data on the bounded input
queue, which succeeds exactly when the queue is below capacity; on
success return the byte count data.len(). -/
def Manager.sendInput (m : Manager) (id : Nat) (data : List Nat) :
    Manager × Except MgrErr Nat :=
  match m.sessions id with
  | none => (m, .error (.notFound id))
  | some s =>
    if s.inputQueue.length < INPUT_CAP then
      (m.setSession id (s.enqueueInput data), .ok data.length)
    else (m, .error .busy)

/-- SessionManager.kill (session.rs lines 404 to 422): look the id up
(not found error if absent), overwrite the status watch channel with
Killed and set meta.status (the SIGTERM to the child is an external
effect outside the model). -/
def Manager.kill (m : Manager) (id : Nat) : Manager × Except MgrErr Unit :=
  match m.sessions id with
  | none => (m, .error (.notFound id))
  | some s => (m.setSession id s.killUpdate, .ok ())

/-- The waiter task for a session firing with the child exit code
(session.rs lines 312 to 324): overwrite the status watch channel with
Completed(code). -/
def Manager.waiterFires (m : Manager) (id : Nat) (code : Int) : Manager :=
  match m.sessions id with
  | none => m
  | some s => m.setSession id (s.waiterUpdate code)

-- ---------------------------------------------------------------------------
-- Launch validation (src/session.rs lines 132 to 166)
-- ---------------------------------------------------------------------------

/-- The environment the launch validation consults: the PATH variable
(absent when std::env::var fails) and the filesystem oracles for
Path::exists and Path::is_dir.  Paths are lists of characters so that
the splitting of PATH on the colon can be modelled from the source. -/
structure Env where
  pathVar : Option (List Char)
  fsExists : List Char → Bool
  fsIsDir : List Char → Bool

/-- Rust str::split on a single separator character: splitting the empty
string yields one empty piece, and every separator occurrence starts a
new piece. -/
def splitOnChar (sep : Char) : List Char → List (List Char)
  | [] => [[]]
  | c :: rest =>
    if c = sep then [] :: splitOnChar sep rest
    else
      match splitOnChar sep rest with
      | [] => [[c]]
      | h :: t => (c :: h) :: t

/-- Rust Path::is_absolute on Unix: the path starts with the separator. -/
def isAbsolutePath : List Char → Bool
  | [] => false
  | c :: _ => c = '/'

/-- Rust PathBuf::from(dir).join(file) for a non-absolute file: append,
inserting a separator unless the directory is empty or already ends in
one. -/
def pathJoin (dir file : List Char) : List Char :=
  if dir = [] then file
  else if dir.getLast? = some '/' then dir ++ file
  else dir ++ '/' :: file

/-- The validation and id-allocation prefix of SessionManager.launch
(session.rs lines 132 to 166), exactly in source order:

1. bail if the command is empty;
2. if argv0 is not absolute and PATH is readable, bail unless some PATH
   entry joined with argv0 exists (when PATH is unreadable the check is
   skipped); if argv0 is absolute, bail unless it exists;
3. allocate the id with NEXT_ID.fetch_add(1) (u32, wrapping);
4. bail if the working directory does not exist;
5. bail if the working directory is not a directory;
6. otherwise the launch proceeds with the allocated id (the later PTY
   spawn and registry insert are beyond the validation prefix).

The returned manager carries the NEXT_ID counter as updated at the point
the function returns; the registry is never touched by this prefix.

This definition is steps 3 to 6: the id allocation and the
working-directory validation that the source performs after it. -/
def Manager.launchAllocPhase (m : Manager) (env : Env) (workingDir : List Char) :
    Manager × Except MgrErr Nat :=
  let id := m.nextId
  let m2 : Manager := { m with nextId := (m.nextId + 1) % U32MOD }
  if ¬ env.fsExists workingDir then
    (m2, .error (.workdirNotExist (String.mk workingDir)))
  else if ¬ env.fsIsDir workingDir then
    (m2, .error (.workdirNotDir (String.mk workingDir)))
  else (m2, .ok id)

/-- The command-validation prefix of SessionManager.launch preceding the
id allocation (steps 1 and 2 above), dispatching into the allocation
phase when the command validates. -/
def Manager.launchCheck (m : Manager) (env : Env) (command : List (List Char))
    (workingDir : List Char) : Manager × Except MgrErr Nat :=
  match command with
  | [] => (m, .error .emptyCommand)
  | argv0 :: _ =>
    if ¬ isAbsolutePath argv0 then
      match env.pathVar with
      | some pv =>
        if (splitOnChar ':' pv).any (fun d => env.fsExists (pathJoin d argv0)) then
          m.launchAllocPhase env workingDir
        else (m, .error (.commandNotFound (String.mk argv0)))
      | none => m.launchAllocPhase env workingDir
    else if ¬ env.fsExists argv0 then
      (m, .error (.commandNotExist (String.mk argv0)))
    else m.launchAllocPhase env workingDir

/-- NEXT_ID.fetch_add(1, SeqCst) (session.rs line 153): return the
current counter and store the wrapped successor. -/
def Manager.allocId (m : Manager) : Manager × Nat :=
  ({ m with nextId := (m.nextId + 1) % U32MOD }, m.nextId)

/-- The id handed out by the (k+1)-th consecutive allocation. -/
def Manager.allocStream (m : Manager) : Nat → Nat
  | 0 => m.allocId.2
  | k + 1 => Manager.allocStream m.allocId.1 k

-- ---------------------------------------------------------------------------
-- Startup recovery of sessions.json (src/session.rs lines 85 to 129)
-- ---------------------------------------------------------------------------

/-- The metadata file name inside the data directory. -/
def sessionsFileName : String := "sessions.json"

/-- The backup name produced by with_extension for a timestamp:
sessions.json becomes sessions.json.corrupt.(timestamp). -/
def corruptBackupName (ts : String) : String :=
  "sessions.json.corrupt." ++ ts

/-- Largest id in a parsed metadata list, 0 when empty
(metas.iter().map(id).max().unwrap_or(0)). -/
def listMax (l : List Nat) : Nat := l.foldr max 0

/-- Outcome of SessionManager::new: the data directory contents after
startup, the (always empty) restored registry, and the NEXT_ID value. -/
structure InitResult where
  fsAfter : String → Option String
  registry : Nat → Option Session
  nextId : Nat

/-- SessionManager::new (session.rs lines 85 to 129).  The data
directory is a map from file name to contents; parse is the oracle for
serde_json::from_str on the file contents, yielding the persisted ids;
ts is the formatted timestamp; bootNextId is the value NEXT_ID holds
before the call (1 in a fresh process).

If the file is absent the counter is left alone.  If it parses, NEXT_ID
is stored as max(ids) + 1 (u32, so reduced modulo 2^32).  If parsing
fails, the file is copied (fs::copy, the original stays in place) to the
backup name and the metadata list is treated as empty, storing
max(empty) + 1 = 1.  Live sessions are never restored, so the registry
starts empty in every case. -/
def managerInit (parse : String → Option (List Nat)) (ts : String)
    (fs0 : String → Option String) (bootNextId : Nat) : InitResult :=
  match fs0 sessionsFileName with
  | none => ⟨fs0, fun _ => none, bootNextId⟩
  | some content =>
    match parse content with
    | some ids => ⟨fs0, fun _ => none, (listMax ids + 1) % U32MOD⟩
    | none =>
      ⟨fun p => if p = corruptBackupName ts then some content else fs0 p,
       fun _ => none, (listMax [] + 1) % U32MOD⟩

-- ---------------------------------------------------------------------------
-- Debounced persistence manager (src/daemon.rs lines 587 to 613)
-- ---------------------------------------------------------------------------

/-- The debounce interval in milliseconds. -/
def DEBOUNCE_MS : Nat := 500

/-- State of the persistence_manager loop: the pending flag, the time at
which the loop last (re)entered the select (the sleep future is created
afresh at each iteration, so the debounce deadline is lastEvent +
DEBOUNCE_MS), and the number of persist_meta calls so far. -/
structure PMState where
  pending : Bool
  lastEvent : Nat
  writes : Nat
deriving DecidableEq, Repr

/-- Processing of the next persistence signal, arriving at time t.
If the pending flag is set and the debounce deadline expires before the
signal arrives, the timer branch fires first: persist_meta runs (one
write) and pending is cleared; with pending now false the sleep branch
is disabled by its guard, so no further timer fires before the signal.
The signal itself then sets pending and restarts the debounce timer. -/
def pmStep (st : PMState) (t : Nat) : PMState :=
  let st1 :=
    if st.pending ∧ st.lastEvent + DEBOUNCE_MS ≤ t then
      { pending := false, lastEvent := st.lastEvent + DEBOUNCE_MS,
        writes := st.writes + 1 }
    else st
  { st1 with pending := true, lastEvent := t }

/-- Run the persistence loop over the whole list of signal arrival
times, then let the final debounce period elapse: if the pending flag is
still set, the timer fires once more and persist_meta runs. -/
def pmRun (signals : List Nat) : PMState :=
  let fin := signals.foldl pmStep ⟨false, 0, 0⟩
  if fin.pending then
    { pending := false, lastEvent := fin.lastEvent + DEBOUNCE_MS,
      writes := fin.writes + 1 }
  else fin

-- ---------------------------------------------------------------------------
-- Concrete fixtures used by counterexamples and witnesses
-- ---------------------------------------------------------------------------

/-- A freshly launched session: Running, no clients, empty queue. -/
def sessionRunning : Session :=
  { status := .Running, metaStatus := .Running, attachedCount := 0, inputQueue := [] }

/-- A session whose child has exited with code 0 and whose last client
has already detached: attached_count is back to 0. -/
def sessionEnded : Session :=
  { status := .Completed 0, metaStatus := .Completed 0, attachedCount := 0, inputQueue := [] }

/-- A session whose input queue is at capacity. -/
def sessionFullQueue : Session :=
  { status := .Running, metaStatus := .Running, attachedCount := 1,
    inputQueue := List.replicate INPUT_CAP [0] }

/-- A registry with a Running session at id 1, an ended session at id 3,
and a full-queue session at id 4. -/
def managerSample : Manager :=
  { sessions := fun j =>
      if j = 1 then some sessionRunning
      else if j = 3 then some sessionEnded
      else if j = 4 then some sessionFullQueue
      else none,
    nextId := 5 }

/-- A registry holding only the ended session, at id 1. -/
def managerEnded : Manager :=
  { sessions := fun j => if j = 1 then some sessionEnded else none, nextId := 2 }

/-- Launch environment for the validation counterexample: PATH is /bin,
the only existing path is /bin/sh, and no path is a directory (so any
working directory fails validation). -/
def envNoDirs : Env :=
  { pathVar := some ("/bin".toList),
    fsExists := fun p => p == "/bin/sh".toList,
    fsIsDir := fun _ => false }

/-- An empty manager whose counter is at the initial value 1. -/
def managerFresh : Manager := { sessions := fun _ => none, nextId := 1 }

/-- A data directory whose sessions.json holds unparsable bytes. -/
def fsCorrupt : String → Option String :=
  fun p => if p = sessionsFileName then some "not json" else none

/-- A parse oracle that rejects every content (serde failure). -/
def parseFails : String → Option (List Nat) := fun _ => none

/-- A data directory whose sessions.json parses to a single session
whose id is the largest u32 value. -/
def fsMaxId : String → Option String :=
  fun p => if p = sessionsFileName then some "maxfile" else none

/-- A parse oracle returning the single persisted id 2^32 - 1. -/
def parseMaxId : String → Option (List Nat) := fun _ => some [2 ^ 32 - 1]

/-- A data directory with a well-formed sessions.json. -/
def fsTwoIds : String → Option String :=
  fun p => if p = sessionsFileName then some "twofile" else none

/-- A parse oracle returning the persisted ids 2 and 7. -/
def parseTwoIds : String → Option (List Nat) := fun _ => some [2, 7]

/-- An empty data directory: no sessions.json. -/
def fsAbsent : String → Option String := fun _ => none

-- ---------------------------------------------------------------------------
-- Helper lemmas
-- ---------------------------------------------------------------------------

/-- Reassembling the four big-endian bytes of a u32 value recovers it. -/
theorem u32be_digits (n : Nat) (h : n < 2 ^ 32) :
    ((n / 2 ^ 24 % 256 * 256 + n / 2 ^ 16 % 256) * 256 + n / 2 ^ 8 % 256) * 256 + n % 256
      = n := by
  omega

/-- The attach counter update agrees with fetch_add(1) modulo 2^64 on
every u64-representable value. -/
theorem attach_wrap_eq_mod (c : Nat) (h : c < USIZE) :
    (if c + 1 < USIZE then c + 1 else c + 1 - USIZE) = (c + 1) % USIZE := by
  simp only [USIZE] at *
  split <;> omega

/-- The detach counter update agrees with fetch_sub(1) modulo 2^64 on
every u64-representable value. -/
theorem detach_wrap_eq_mod (c : Nat) (h : c < USIZE) :
    (if c = 0 then USIZE - 1 else c - 1) = (c + (USIZE - 1)) % USIZE := by
  simp only [USIZE] at *
  split <;> omega

-- ---------------------------------------------------------------------------
-- Claim C3
-- ---------------------------------------------------------------------------

/-- Claim C3: for every frame kind and every payload of at most 16 MiB,
write_frame followed by read_frame over the resulting byte stream (with
any trailing bytes) returns the same kind with byte-identical payload
and leaves the trailing bytes unread; and read_frame fails with a
protocol error on any stream whose 5-byte header declares a length
greater than 16 MiB. -/
theorem frame_roundtrip_and_size_limit :
    (∀ (f : Frame) (extra : List Nat), f.payload.length ≤ MAX_PAYLOAD →
        read_frame (write_frame f ++ extra) = ReadResult.frame f extra) ∧
    (∀ (t a b c d : Nat) (rest : List Nat),
        ((a * 256 + b) * 256 + c) * 256 + d > MAX_PAYLOAD →
        read_frame (t :: a :: b :: c :: d :: rest) =
          ReadResult.failure "frame payload too large") := by
  constructor
  · intro f extra hlen
    have hlt : f.payload.length < 2 ^ 32 := by
      have hm : MAX_PAYLOAD < 2 ^ 32 := by norm_num [MAX_PAYLOAD]
      omega
    have hmod : f.payload.length % 2 ^ 32 = f.payload.length := Nat.mod_eq_of_lt hlt
    cases f with
    | Control p =>
      simp only [Frame.payload] at hlen hlt hmod
      simp only [write_frame, Frame.typeByte, Frame.payload, u32be, hmod,
        List.cons_append, List.nil_append, read_frame]
      rw [u32be_digits p.length hlt, if_neg (Nat.not_lt.mpr hlen),
        if_neg (by rw [List.length_append]; omega),
        List.take_left, List.drop_left]
    | Data p =>
      simp only [Frame.payload] at hlen hlt hmod
      simp only [write_frame, Frame.typeByte, Frame.payload, u32be, hmod,
        List.cons_append, List.nil_append, read_frame]
      rw [u32be_digits p.length hlt, if_neg (Nat.not_lt.mpr hlen),
        if_neg (by rw [List.length_append]; omega),
        List.take_left, List.drop_left]
  · intro t a b c d rest h
    simp only [read_frame]
    rw [if_pos h]

/-- Witness for C3: a concrete two-byte Data frame round-trips, and a
concrete header declaring 2^24 + 1 bytes is rejected. -/
theorem frame_roundtrip_and_size_limit_witness :
    read_frame (write_frame (Frame.Data [7, 8]) ++ []) =
      ReadResult.frame (Frame.Data [7, 8]) [] ∧
    read_frame [0, 1, 0, 0, 1] = ReadResult.failure "frame payload too large" :=
  ⟨frame_roundtrip_and_size_limit.1 (Frame.Data [7, 8]) [] (by decide),
   frame_roundtrip_and_size_limit.2 0 1 0 0 1 [] (by decide)⟩

-- ---------------------------------------------------------------------------
-- Claim C10
-- ---------------------------------------------------------------------------

/-- Claim C10: read_frame treats end-of-stream anywhere within the
5-byte header, including after 1 to 4 header bytes, as an orderly end
and returns Ok(None); end-of-stream after a complete header but before
the declared payload length has been read returns an error. -/
theorem read_frame_header_eof_payload_error :
    (∀ s : List Nat, s.length < 5 → read_frame s = ReadResult.eof) ∧
    (∀ (t a b c d : Nat) (rest : List Nat),
        rest.length < ((a * 256 + b) * 256 + c) * 256 + d →
        (read_frame (t :: a :: b :: c :: d :: rest)).isFailure = true) := by
  constructor
  · intro s h
    match s with
    | [] => rfl
    | [x0] => rfl
    | [x0, x1] => rfl
    | [x0, x1, x2] => rfl
    | [x0, x1, x2, x3] => rfl
    | x0 :: x1 :: x2 :: x3 :: x4 :: tl => simp at h; omega
  · intro t a b c d rest h
    simp only [read_frame]
    by_cases hmax : ((a * 256 + b) * 256 + c) * 256 + d > MAX_PAYLOAD
    · rw [if_pos hmax]; rfl
    · rw [if_neg hmax, if_pos h]; rfl

/-- Witness for C10: a three-byte stream (EOF after three header bytes)
reads as an orderly end, and a stream whose header declares five payload
bytes but carries only two reads as an error. -/
theorem read_frame_header_eof_payload_error_witness :
    read_frame [9, 9, 9] = ReadResult.eof ∧
    (read_frame [0, 0, 0, 0, 5, 1, 2]).isFailure = true :=
  ⟨read_frame_header_eof_payload_error.1 [9, 9, 9] (by decide),
   read_frame_header_eof_payload_error.2 0 0 0 0 5 [1, 2] (by decide)⟩

-- ---------------------------------------------------------------------------
-- Claim C1
-- ---------------------------------------------------------------------------

/-- Counterexample to C1 as stated: the status watch channel is not a
first-writer-wins latch.  A kill writes Killed, but the Waiter firing
afterwards overwrites it with Completed(0), so the later terminal write
is not a no-op and the status does not stay Killed. -/
theorem kill_then_completed_overwrites_killed :
    ((sessionRunning.applyOp SessOp.kill).applyOp (SessOp.waiterExit 0)).status =
      SessionStatus.Completed 0 ∧
    ((sessionRunning.applyOp SessOp.kill).applyOp (SessOp.waiterExit 0)).status ≠
      SessionStatus.Killed := by
  decide

/-- Claim C1 amended: once the status is terminal no operation ever
takes it back to Running (kill and the Waiter only ever write terminal
values, and no other operation writes the status), but terminal writes
are last-writer-wins rather than latched: a kill followed by the Waiter
write leaves the status Completed(code), not Killed. -/
theorem terminal_status_never_running :
    (∀ (s : Session) (ops : List SessOp), s.status ≠ SessionStatus.Running →
        (ops.foldl Session.applyOp s).status ≠ SessionStatus.Running) ∧
    (∀ (s : Session) (c : Int),
        ((s.applyOp SessOp.kill).applyOp (SessOp.waiterExit c)).status =
          SessionStatus.Completed c) := by
  constructor
  · intro s ops
    induction ops generalizing s with
    | nil => intro h; exact h
    | cons op tl ih =>
      intro h
      rw [List.foldl_cons]
      apply ih
      cases op with
      | kill => simp [Session.applyOp, Session.killUpdate]
      | waiterExit c => simp [Session.applyOp, Session.waiterUpdate]
      | attach =>
        simp only [Session.applyOp]
        split
        · exact h
        · exact h
      | detach => exact h
      | sendInput d =>
        simp only [Session.applyOp]
        split
        · exact h
        · exact h
      | refresh => exact h
  · intro s c
    rfl

/-- Witness for the amended C1: a terminal session stays non-Running
under a Waiter write followed by an attach attempt, and kill before the
Waiter yields Completed(3). -/
theorem terminal_status_never_running_witness :
    (([SessOp.waiterExit 2, SessOp.attach].foldl Session.applyOp sessionEnded).status ≠
      SessionStatus.Running) ∧
    ((sessionRunning.applyOp SessOp.kill).applyOp (SessOp.waiterExit 3)).status =
      SessionStatus.Completed 3 :=
  ⟨terminal_status_never_running.1 sessionEnded [SessOp.waiterExit 2, SessOp.attach]
      (by decide),
   terminal_status_never_running.2 sessionRunning 3⟩

-- ---------------------------------------------------------------------------
-- Claim C5
-- ---------------------------------------------------------------------------

/-- Claim C5 is a code bug: detach uses AtomicUsize::fetch_sub(1), which
wraps rather than saturates.  Detaching the registered session whose
attach count is already 0 succeeds and leaves the count at 2^64 - 1, not
at 0 as the specified saturating decrement requires. -/
theorem detach_at_zero_wraps :
    (managerEnded.detach 1).2 = Except.ok () ∧
    (managerEnded.detach 1).1.sessions 1 =
      some { sessionEnded with attachedCount := USIZE - 1 } ∧
    USIZE - 1 ≠ 0 := by
  refine ⟨rfl, by decide, by decide⟩

-- ---------------------------------------------------------------------------
-- Claim C6
-- ---------------------------------------------------------------------------

/-- Claim C6: attach(id) succeeds and increments attach_count by exactly
one precisely when a session with that id exists and its status is
Running; an unknown id fails with the not-found error and a terminal
status fails with the not-running error, both failures leaving the
manager (hence every attach count) unchanged.  The exact increment is
stated under the no-wrap side condition of the usize counter, with the
wrapped form holding unconditionally. -/
theorem attach_spec :
    ∀ (m : Manager) (id : Nat),
      (m.sessions id = none → m.attach id = (m, Except.error (MgrErr.notFound id))) ∧
      (∀ s, m.sessions id = some s → s.status ≠ SessionStatus.Running →
          m.attach id = (m, Except.error (MgrErr.notRunning id))) ∧
      (∀ s, m.sessions id = some s → s.status = SessionStatus.Running →
          (m.attach id).2 = Except.ok () ∧
          (∀ j, j ≠ id → (m.attach id).1.sessions j = m.sessions j) ∧
          (s.attachedCount + 1 < USIZE →
            (m.attach id).1.sessions id =
              some { s with attachedCount := s.attachedCount + 1 }) ∧
          (s.attachedCount < USIZE →
            (m.attach id).1.sessions id =
              some { s with attachedCount := (s.attachedCount + 1) % USIZE })) := by
  intro m id
  refine ⟨?_, ?_, ?_⟩
  · intro h
    simp [Manager.attach, h]
  · intro s hs hstat
    simp only [Manager.attach, hs]
    rw [if_pos hstat]
  · intro s hs hstat
    simp only [Manager.attach, hs]
    rw [if_neg (by simp [hstat])]
    refine ⟨rfl, ?_, ?_, ?_⟩
    · intro j hj
      simp [Manager.setSession, hj]
    · intro hlt
      simp [Manager.setSession, Session.attachUpdate, if_pos hlt]
    · intro hlt
      simp only [Manager.setSession, Session.attachUpdate]
      rw [attach_wrap_eq_mod s.attachedCount hlt]
      simp

/-- Witness for C6 on a concrete registry: attaching an unknown id 2
fails not-found, attaching the ended session 3 fails not-running, and
attaching the running session 1 succeeds with its count going 0 to 1. -/
theorem attach_spec_witness :
    managerSample.attach 2 = (managerSample, Except.error (MgrErr.notFound 2)) ∧
    managerSample.attach 3 = (managerSample, Except.error (MgrErr.notRunning 3)) ∧
    (managerSample.attach 1).2 = Except.ok () ∧
    (managerSample.attach 1).1.sessions 1 =
      some { sessionRunning with attachedCount := sessionRunning.attachedCount + 1 } :=
  ⟨(attach_spec managerSample 2).1 rfl,
   (attach_spec managerSample 3).2.1 sessionEnded rfl (by decide),
   ((attach_spec managerSample 1).2.2 sessionRunning rfl rfl).1,
   ((attach_spec managerSample 1).2.2 sessionRunning rfl rfl).2.2.1 (by decide)⟩

-- ---------------------------------------------------------------------------
-- Claim C7
-- ---------------------------------------------------------------------------

/-- Claim C7: send_input on an existing session is a non-blocking
enqueue: with free queue capacity it appends the buffer and returns Ok
with exactly data.len(); with a full queue it returns the busy error at
once, leaving the state unchanged; an unknown id returns the not-found
error.  The model is a pure function, so no outcome ever waits. -/
theorem send_input_spec :
    ∀ (m : Manager) (id : Nat) (data : List Nat),
      (m.sessions id = none →
          m.sendInput id data = (m, Except.error (MgrErr.notFound id))) ∧
      (∀ s, m.sessions id = some s → s.inputQueue.length < INPUT_CAP →
          m.sendInput id data =
            (m.setSession id (s.enqueueInput data), Except.ok data.length)) ∧
      (∀ s, m.sessions id = some s → ¬ s.inputQueue.length < INPUT_CAP →
          m.sendInput id data = (m, Except.error MgrErr.busy)) := by
  intro m id data
  refine ⟨?_, ?_, ?_⟩
  · intro h
    simp [Manager.sendInput, h]
  · intro s hs hroom
    simp only [Manager.sendInput, hs]
    rw [if_pos hroom]
  · intro s hs hfull
    simp only [Manager.sendInput, hs]
    rw [if_neg hfull]

/-- Witness for C7 on a concrete registry: unknown id 2 fails not-found,
the empty queue of session 1 accepts two bytes returning 2, and the full
queue of session 4 fails busy. -/
theorem send_input_spec_witness :
    managerSample.sendInput 2 [5] = (managerSample, Except.error (MgrErr.notFound 2)) ∧
    managerSample.sendInput 1 [5, 6] =
      (managerSample.setSession 1 (sessionRunning.enqueueInput [5, 6]), Except.ok 2) ∧
    managerSample.sendInput 4 [5] = (managerSample, Except.error MgrErr.busy) :=
  ⟨(send_input_spec managerSample 2 [5]).1 rfl,
   (send_input_spec managerSample 1 [5, 6]).2.1 sessionRunning rfl (by decide),
   (send_input_spec managerSample 4 [5]).2.2 sessionFullQueue rfl
     (by
       rw [show sessionFullQueue.inputQueue = List.replicate INPUT_CAP [0] from rfl,
         List.length_replicate]
       exact Nat.lt_irrefl INPUT_CAP)⟩

-- ---------------------------------------------------------------------------
-- Claim C4
-- ---------------------------------------------------------------------------

/-- Case analysis of the allocation phase: it never touches the
registry, always advances the NEXT_ID counter, and ends in one of the
two working-directory errors or success with the pre-advance counter
value. -/
theorem launchAllocPhase_cases (m : Manager) (env : Env) (wd : List Char) :
    (m.launchAllocPhase env wd).1.sessions = m.sessions ∧
    (m.launchAllocPhase env wd).1.nextId = (m.nextId + 1) % U32MOD ∧
    ((m.launchAllocPhase env wd).2 = Except.error (MgrErr.workdirNotExist (String.mk wd)) ∨
     (m.launchAllocPhase env wd).2 = Except.error (MgrErr.workdirNotDir (String.mk wd)) ∨
     (m.launchAllocPhase env wd).2 = Except.ok m.nextId) := by
  simp only [Manager.launchAllocPhase]
  split
  · exact ⟨rfl, rfl, Or.inl rfl⟩
  · split
    · exact ⟨rfl, rfl, Or.inr (Or.inl rfl)⟩
    · exact ⟨rfl, rfl, Or.inr (Or.inr rfl)⟩

/-- The three C4 conjuncts, specialized to a launch that has reached the
allocation phase. -/
theorem launch_alloc_goals (m : Manager) (env : Env) (wd : List Char) :
    (m.launchAllocPhase env wd).1.sessions = m.sessions ∧
    (((m.launchAllocPhase env wd).2 = Except.error MgrErr.emptyCommand ∨
      (∃ n, (m.launchAllocPhase env wd).2 = Except.error (MgrErr.commandNotFound n)) ∨
      (∃ n, (m.launchAllocPhase env wd).2 = Except.error (MgrErr.commandNotExist n))) →
      (m.launchAllocPhase env wd).1 = m) ∧
    (((∃ d, (m.launchAllocPhase env wd).2 = Except.error (MgrErr.workdirNotExist d)) ∨
      (∃ d, (m.launchAllocPhase env wd).2 = Except.error (MgrErr.workdirNotDir d))) →
      (m.launchAllocPhase env wd).1.nextId = (m.nextId + 1) % U32MOD) := by
  obtain ⟨h1, h2, h3⟩ := launchAllocPhase_cases m env wd
  refine ⟨h1, ?_, fun _ => h2⟩
  intro h
  exfalso
  rcases h3 with h3 | h3 | h3 <;>
    rcases h with h | ⟨n, hn⟩ | ⟨n, hn⟩ <;> simp_all

/-- Claim C4 corrected: the command validations (non-empty command and
argv0 resolution) run before the id allocation, so a launch failing them
returns an error with the counter and the registry unchanged; but the
working-directory validation runs after NEXT_ID.fetch_add, so a launch
failing it returns an error with the registry unchanged while the
next-id counter has already been advanced. -/
theorem launch_validation_effects :
    ∀ (m : Manager) (env : Env) (command : List (List Char)) (workingDir : List Char),
      (m.launchCheck env command workingDir).1.sessions = m.sessions ∧
      (((m.launchCheck env command workingDir).2 = Except.error MgrErr.emptyCommand ∨
        (∃ n, (m.launchCheck env command workingDir).2 =
          Except.error (MgrErr.commandNotFound n)) ∨
        (∃ n, (m.launchCheck env command workingDir).2 =
          Except.error (MgrErr.commandNotExist n))) →
        (m.launchCheck env command workingDir).1 = m) ∧
      (((∃ d, (m.launchCheck env command workingDir).2 =
          Except.error (MgrErr.workdirNotExist d)) ∨
        (∃ d, (m.launchCheck env command workingDir).2 =
          Except.error (MgrErr.workdirNotDir d))) →
        (m.launchCheck env command workingDir).1.nextId = (m.nextId + 1) % U32MOD) := by
  intro m env command workingDir
  rcases command with _ | ⟨argv0, restc⟩
  · refine ⟨rfl, fun _ => rfl, ?_⟩
    intro h
    rcases h with ⟨d, hd⟩ | ⟨d, hd⟩ <;> simp [Manager.launchCheck] at hd
  · simp only [Manager.launchCheck]
    by_cases habs : isAbsolutePath argv0 = true
    · rw [if_neg (by simp [habs])]
      by_cases hex : env.fsExists argv0 = true
      · rw [if_neg (by simp [hex])]
        exact launch_alloc_goals m env workingDir
      · rw [if_pos (by simp [hex])]
        refine ⟨rfl, fun _ => rfl, ?_⟩
        intro h
        rcases h with ⟨d, hd⟩ | ⟨d, hd⟩ <;> simp at hd
    · rw [if_pos (by simp [habs])]
      split
      · rename_i pv hpv
        by_cases hfound :
            ((splitOnChar ':' pv).any fun d => env.fsExists (pathJoin d argv0)) = true
        · rw [if_pos hfound]
          exact launch_alloc_goals m env workingDir
        · rw [if_neg hfound]
          refine ⟨rfl, fun _ => rfl, ?_⟩
          intro h
          rcases h with ⟨d, hd⟩ | ⟨d, hd⟩ <;> simp at hd
      · exact launch_alloc_goals m env workingDir

/-- Counterexample to C4 as stated: with PATH = /bin and /bin/sh the
only existing path, launching sh with the non-existent working directory
/nope fails validation, yet the next-id counter has moved from 1 to 2:
the working-directory validation happens after the id allocation. -/
theorem launch_dir_check_after_id_alloc :
    (managerFresh.launchCheck envNoDirs ["sh".toList] "/nope".toList).2 =
      Except.error (MgrErr.workdirNotExist "/nope") ∧
    (managerFresh.launchCheck envNoDirs ["sh".toList] "/nope".toList).1.nextId = 2 ∧
    managerFresh.nextId = 1 := by
  refine ⟨rfl, by decide, rfl⟩

/-- Witness for the amended C4: the registry is untouched by the failing
launch, the empty command leaves the whole state unchanged, and the
working-directory failure has advanced the counter. -/
theorem launch_validation_effects_witness :
    (managerFresh.launchCheck envNoDirs ["sh".toList] "/nope".toList).1.sessions =
      managerFresh.sessions ∧
    (managerFresh.launchCheck envNoDirs [] "/nope".toList).1 = managerFresh ∧
    (managerFresh.launchCheck envNoDirs ["sh".toList] "/nope".toList).1.nextId =
      (managerFresh.nextId + 1) % U32MOD :=
  ⟨(launch_validation_effects managerFresh envNoDirs ["sh".toList] "/nope".toList).1,
   (launch_validation_effects managerFresh envNoDirs [] "/nope".toList).2.1
     (Or.inl rfl),
   (launch_validation_effects managerFresh envNoDirs ["sh".toList] "/nope".toList).2.2
     (Or.inl ⟨"/nope", rfl⟩)⟩

-- ---------------------------------------------------------------------------
-- Claim C2
-- ---------------------------------------------------------------------------

/-- Counterexample to C2 as stated: the corrupt file is backed up with
fs::copy, not renamed, so after startup the original path sessions.json
still holds the corrupt content (alongside the backup). -/
theorem corrupt_file_copied_not_renamed :
    (managerInit parseFails "20240101_000000" fsCorrupt 1).fsAfter sessionsFileName =
      some "not json" ∧
    (managerInit parseFails "20240101_000000" fsCorrupt 1).fsAfter
      (corruptBackupName "20240101_000000") = some "not json" := by
  exact ⟨by decide, by decide⟩

/-- Claim C2 amended: when sessions.json exists but fails to parse, it
is copied to sessions.json.corrupt.(timestamp) — the original path keeps
the corrupt content until the next snapshot overwrites it — and the
manager continues with an empty registry and next-id 1. -/
theorem corrupt_sessions_recovery :
    ∀ (parse : String → Option (List Nat)) (ts : String) (fs0 : String → Option String)
      (bootId : Nat) (content : String),
      fs0 sessionsFileName = some content → parse content = none →
      (managerInit parse ts fs0 bootId).fsAfter (corruptBackupName ts) = some content ∧
      (managerInit parse ts fs0 bootId).fsAfter sessionsFileName = some content ∧
      (∀ i, (managerInit parse ts fs0 bootId).registry i = none) ∧
      (managerInit parse ts fs0 bootId).nextId = 1 := by
  intro parse ts fs0 bootId content hfs hparse
  simp only [managerInit, hfs, hparse]
  refine ⟨by simp, ?_, by simp, by norm_num [listMax, U32MOD]⟩
  by_cases h : sessionsFileName = corruptBackupName ts
  · simp [h]
  · simp [h, hfs]

/-- Witness for the amended C2: a concrete corrupt data directory and a
failing parse oracle yield the backup, the untouched original, an empty
registry and next-id 1. -/
theorem corrupt_sessions_recovery_witness :
    (managerInit parseFails "x" fsCorrupt 7).fsAfter (corruptBackupName "x") =
      some "not json" ∧
    (managerInit parseFails "x" fsCorrupt 7).fsAfter sessionsFileName =
      some "not json" ∧
    (∀ i, (managerInit parseFails "x" fsCorrupt 7).registry i = none) ∧
    (managerInit parseFails "x" fsCorrupt 7).nextId = 1 :=
  corrupt_sessions_recovery parseFails "x" fsCorrupt 7 "not json" (by decide) rfl

-- ---------------------------------------------------------------------------
-- Claim C8
-- ---------------------------------------------------------------------------

/-- Every element of a list is bounded by listMax. -/
theorem le_listMax : ∀ {l : List Nat} {i : Nat}, i ∈ l → i ≤ listMax l := by
  intro l
  induction l with
  | nil => intro i h; cases h
  | cons a tl ih =>
    intro i h
    simp only [listMax, List.foldr_cons]
    rcases List.mem_cons.mp h with rfl | h2
    · exact le_max_left _ _
    · exact le_trans (ih h2) (le_max_right _ _)

/-- Before the 32-bit counter wraps, consecutive allocations hand out
consecutive ids. -/
theorem allocStream_eq (k : Nat) :
    ∀ m : Manager, m.nextId + k < U32MOD → m.allocStream k = m.nextId + k := by
  induction k with
  | zero =>
    intro m h
    simp [Manager.allocStream, Manager.allocId]
  | succ k ih =>
    intro m h
    show Manager.allocStream m.allocId.1 k = _
    have h1 : m.allocId.1.nextId = m.nextId + 1 := by
      show (m.nextId + 1) % U32MOD = m.nextId + 1
      exact Nat.mod_eq_of_lt (by omega)
    rw [ih m.allocId.1 (by rw [h1]; omega), h1]
    omega

/-- Counterexample to C8 as stated: with a parsable sessions.json whose
single persisted id is 2^32 - 1, the u32 store of max + 1 wraps to 0, so
the first id allocated after the restart is 0, which is not strictly
greater than the persisted id. -/
theorem restart_id_overflow :
    (managerInit parseMaxId "ts" fsMaxId 1).nextId = 0 ∧
    Manager.allocStream
      { sessions := (managerInit parseMaxId "ts" fsMaxId 1).registry,
        nextId := (managerInit parseMaxId "ts" fsMaxId 1).nextId } 0 = 0 ∧
    ¬ ((0 : Nat) > 2 ^ 32 - 1) := by
  refine ⟨by decide, by decide, by decide⟩

/-- Claim C8 amended: with an absent file the counter keeps its boot
value (1 in a fresh process); with a parsable file the counter is stored
as (max ids + 1) mod 2^32 (1 for an empty list), and as long as max + 1
and the ids handed out stay below 2^32 every allocated id is max + 1 + k
for consecutive k, each strictly greater than every persisted id. -/
theorem restart_next_id :
    ∀ (parse : String → Option (List Nat)) (ts : String) (fs0 : String → Option String)
      (bootId : Nat),
      (fs0 sessionsFileName = none → (managerInit parse ts fs0 bootId).nextId = bootId) ∧
      (∀ content ids, fs0 sessionsFileName = some content → parse content = some ids →
        (managerInit parse ts fs0 bootId).nextId = (listMax ids + 1) % U32MOD ∧
        (ids = [] → (managerInit parse ts fs0 bootId).nextId = 1) ∧
        (∀ k, listMax ids + 1 + k < U32MOD →
          Manager.allocStream
            { sessions := (managerInit parse ts fs0 bootId).registry,
              nextId := (managerInit parse ts fs0 bootId).nextId } k
            = listMax ids + 1 + k ∧
          ∀ i ∈ ids, i < listMax ids + 1 + k)) := by
  intro parse ts fs0 bootId
  constructor
  · intro h
    simp [managerInit, h]
  · intro content ids hfs hparse
    have hnext : (managerInit parse ts fs0 bootId).nextId = (listMax ids + 1) % U32MOD := by
      simp [managerInit, hfs, hparse]
    refine ⟨hnext, ?_, ?_⟩
    · intro h
      subst h
      rw [hnext]
      norm_num [listMax, U32MOD]
    · intro k hk
      have hmod : (listMax ids + 1) % U32MOD = listMax ids + 1 :=
        Nat.mod_eq_of_lt (by omega)
      have hb : (Manager.mk (managerInit parse ts fs0 bootId).registry
          (managerInit parse ts fs0 bootId).nextId).nextId + k < U32MOD := by
        show (managerInit parse ts fs0 bootId).nextId + k < U32MOD
        rw [hnext, hmod]
        exact hk
      constructor
      · rw [allocStream_eq k _ hb]
        show (managerInit parse ts fs0 bootId).nextId + k = _
        rw [hnext, hmod]
      · intro i hi
        have := le_listMax hi
        omega

/-- Witness for the amended C8: an absent file keeps next-id 1; the
persisted ids 2 and 7 give next-id 8, the second allocation hands out 9,
and the persisted id 7 is below it. -/
theorem restart_next_id_witness :
    (managerInit parseTwoIds "t" fsAbsent 1).nextId = 1 ∧
    (managerInit parseTwoIds "t" fsTwoIds 1).nextId = 8 ∧
    Manager.allocStream
      { sessions := (managerInit parseTwoIds "t" fsTwoIds 1).registry,
        nextId := (managerInit parseTwoIds "t" fsTwoIds 1).nextId } 1 = 9 ∧
    (7 : Nat) < 9 :=
  ⟨(restart_next_id parseTwoIds "t" fsAbsent 1).1 rfl,
   ((restart_next_id parseTwoIds "t" fsTwoIds 1).2 "twofile" [2, 7] (by decide) rfl).1,
   (((restart_next_id parseTwoIds "t" fsTwoIds 1).2 "twofile" [2, 7] (by decide) rfl).2.2
       1 (by decide)).1,
   (((restart_next_id parseTwoIds "t" fsTwoIds 1).2 "twofile" [2, 7] (by decide) rfl).2.2
       1 (by decide)).2 7 (by decide)⟩

-- ---------------------------------------------------------------------------
-- Claim C9
-- ---------------------------------------------------------------------------

/-- During a burst whose signals all arrive within the debounce window
of the first one, the timer branch never fires: the pending flag stays
set, no write happens, and the debounce timer keeps restarting at signal
times at or after the first signal. -/
theorem pm_burst_invariant :
    ∀ (ts : List Nat) (st : PMState) (t1 : Nat),
      st.pending = true → t1 ≤ st.lastEvent →
      (∀ t ∈ ts, t1 ≤ t ∧ t < t1 + DEBOUNCE_MS) →
      (ts.foldl pmStep st).pending = true ∧
      (ts.foldl pmStep st).writes = st.writes ∧
      t1 ≤ (ts.foldl pmStep st).lastEvent := by
  intro ts
  induction ts with
  | nil => intro st t1 hp hl hall; exact ⟨hp, rfl, hl⟩
  | cons t tl ih =>
    intro st t1 hp hl hall
    have ht := hall t (List.mem_cons_self t tl)
    have hcond : ¬ (st.pending = true ∧ st.lastEvent + DEBOUNCE_MS ≤ t) := by
      rintro ⟨_, hle⟩
      have h2 := ht.2
      omega
    have hstep : pmStep st t =
        { pending := true, lastEvent := t, writes := st.writes } := by
      simp only [pmStep, if_neg hcond]
    rw [List.foldl_cons, hstep]
    exact ih { pending := true, lastEvent := t, writes := st.writes } t1 rfl ht.1
      (fun x hx => hall x (List.mem_cons_of_mem t hx))

/-- Claim C9: two or more persistence signals arriving within the 500 ms
debounce window of the first coalesce into exactly one persist_meta
call, fired by the timer branch after the burst, and the write clears
the pending flag. -/
theorem persistence_debounce_coalesces :
    ∀ (t1 : Nat) (rest : List Nat),
      rest ≠ [] →
      (∀ t ∈ rest, t1 ≤ t ∧ t < t1 + DEBOUNCE_MS) →
      (pmRun (t1 :: rest)).writes = 1 ∧ (pmRun (t1 :: rest)).pending = false := by
  intro t1 rest hne hall
  have h0 : pmStep { pending := false, lastEvent := 0, writes := 0 } t1 =
      { pending := true, lastEvent := t1, writes := 0 } := by
    simp [pmStep]
  have hinv := pm_burst_invariant rest { pending := true, lastEvent := t1, writes := 0 } t1
    rfl (Nat.le_refl t1) hall
  simp only [pmRun, List.foldl_cons, h0]
  rw [if_pos hinv.1]
  refine ⟨?_, rfl⟩
  simp [hinv.2.1]

/-- Witness for C9: signals at 100, 150 and 420 ms produce exactly one
write and leave the pending flag clear. -/
theorem persistence_debounce_coalesces_witness :
    (pmRun [100, 150, 420]).writes = 1 ∧ (pmRun [100, 150, 420]).pending = false :=
  persistence_debounce_coalesces 100 [150, 420] (by decide) (by decide)

end Codewire
